import Mathlib

/-!
Shallow embedding of `src/main.py`, a FastAPI backend that proxies two
market-data providers (CoinMarketCap and CoinGecko).

Modelling conventions:
* Python `Optional[str]` values become `Option String`; Python truthiness of
  such a value (`if not x`) is `truthyOpt`.
* A CoinGecko search entry (`item` in `historical_prices`) is a `Coin`:
  `item.get("id")` is `Coin.id : Option String` and `item.get("symbol", "")`
  is `Coin.symbol : String` (the `.get` default is already applied).
* Each outbound `requests.get` call is recorded as a `Request` value (URL,
  headers, query parameters, timeout in seconds); a handler returns the list
  of requests it issued together with its outcome, so "no upstream call is
  made" is `fst = []`.
* The network is an oracle argument: `UpstreamOutcome α` is either a
  transport-level response (`resp status text data`, where `data` is the
  already-extracted payload, e.g. `r.json().get("data", ...)`) or a
  `requests.RequestException` (`exn msg`).
* `raise HTTPException(status_code, detail)` becomes `Except.error` of an
  `HttpError`; a JSON envelope `{"data": d}` becomes `Envelope.mk d`.
* Prices pass through the history handler untouched, so the numeric
  representation is irrelevant; a price point `[timestamp_ms, price]` is
  modelled as `Int × Rat`.
* Symbols and currency codes are ASCII tickers, for which Python
  `str.lower`/`str.upper` agree with `lowerStr`/`upperStr`.
-/

/-- ASCII lowercasing over the character sequence: the effect of Python
`str.lower` on the ASCII ticker/currency text this service handles
(`Char.toLower` only maps `A`-`Z`). -/
def lowerStr (s : String) : String := String.mk (s.data.map Char.toLower)

/-- ASCII uppercasing, the effect of Python `str.upper` on ASCII text. -/
def upperStr (s : String) : String := String.mk (s.data.map Char.toUpper)

/-- Python truthiness of an `Optional[str]`: `None` and `""` are falsy. -/
def truthyOpt : Option String → Bool
  | none => false
  | some s => !s.isEmpty

/-- One entry of the CoinGecko search response's `coins` list
(`src/main.py` lines 130-139): `id` is `item.get("id")`,
`symbol` is `item.get("symbol", "")`. -/
structure Coin where
  id : Option String
  symbol : String
deriving DecidableEq

/-- `CMC_API_BASE` (`src/main.py` line 17). -/
def CMC_API_BASE : String := "https://pro-api.coinmarketcap.com"

/-- `COINGECKO_API_BASE` (`src/main.py` line 20). -/
def COINGECKO_API_BASE : String := "https://api.coingecko.com/api/v3"

/-- An outbound `requests.get` call: URL, headers, query parameters
(values already stringified, as `requests` does), timeout in seconds. -/
structure Request where
  url : String
  headers : List (String × String)
  params : List (String × String)
  timeout : Nat
deriving DecidableEq

/-- An outward `HTTPException`: status code and detail message. -/
structure HttpError where
  status : Nat
  detail : String
deriving DecidableEq

/-- The local JSON envelope `{"data": d}` returned by the CMC handlers. -/
structure Envelope (α : Type) where
  data : α
deriving DecidableEq

/-- The transport-level result of one `requests.get` call: either a response
(status code, raw body text, already-extracted JSON payload) or a
`requests.RequestException` with its message. -/
inductive UpstreamOutcome (α : Type) where
  | resp (status : Nat) (text : String) (data : α)
  | exn (msg : String)
deriving DecidableEq

/-- Detail of the 503 raised by `require_api_key` (`src/main.py` line 25). -/
def keyMissingDetail : String :=
  "CoinMarketCap API key not configured. Set CMC_API_KEY environment variable."

/-- `require_api_key` (`src/main.py` lines 23-25): `some e` means the
handler raises `e` before doing anything else. -/
def require_api_key (apiKey : Option String) : Option HttpError :=
  if truthyOpt apiKey = false then some ⟨503, keyMissingDetail⟩ else none

/-- The request issued by `cmc_global` (`src/main.py` lines 64-68). -/
def globalRequest (key convert : String) : Request :=
  ⟨CMC_API_BASE ++ "/v1/global-metrics/quotes/latest",
   [("X-CMC_PRO_API_KEY", key)], [("convert", convert)], 15⟩

/-- The request issued by `cmc_listings` (`src/main.py` lines 80-84). -/
def listingsRequest (key convert : String) (limit : Int) : Request :=
  ⟨CMC_API_BASE ++ "/v1/cryptocurrency/listings/latest",
   [("X-CMC_PRO_API_KEY", key)],
   [("convert", convert), ("limit", toString limit), ("sort", "market_cap")], 20⟩

/-- The request issued by `cmc_quotes` (`src/main.py` lines 96-100). -/
def quotesRequest (key symbols convert : String) : Request :=
  ⟨CMC_API_BASE ++ "/v2/cryptocurrency/quotes/latest",
   [("X-CMC_PRO_API_KEY", key)],
   [("symbol", symbols), ("convert", convert)], 15⟩

/-- The symbol-search request issued by `historical_prices`
(`src/main.py` lines 126-127). -/
def searchRequest (symbol : String) : Request :=
  ⟨COINGECKO_API_BASE ++ "/search", [], [("query", symbol)], 15⟩

/-- The market-chart request issued by `historical_prices`
(`src/main.py` lines 144-149); `interval` is added only when truthy. -/
def chartRequest (coinId convert days : String) (interval : Option String) : Request :=
  ⟨COINGECKO_API_BASE ++ "/coins/" ++ coinId ++ "/market_chart", [],
   ([("vs_currency", lowerStr convert), ("days", days)] ++
     (if truthyOpt interval then [("interval", interval.getD "")] else [])), 20⟩

/-- `cmc_global` (`src/main.py` lines 61-74), network responses supplied as
an oracle; returns the issued requests and the outcome. -/
def cmc_global {α : Type} (apiKey : Option String) (convert : String)
    (upstream : UpstreamOutcome α) : List Request × Except HttpError (Envelope α) :=
  match require_api_key apiKey with
  | some e => ([], .error e)
  | none =>
    let req := globalRequest (apiKey.getD "") convert
    match upstream with
    | .exn msg => ([req], .error ⟨502, msg⟩)
    | .resp status text data =>
      if status ≠ 200 then ([req], .error ⟨status, text⟩)
      else ([req], .ok ⟨data⟩)

/-- `cmc_listings` (`src/main.py` lines 77-90): `data` is upstream's
`r.json().get("data", [])` payload. -/
def cmc_listings {α : Type} (apiKey : Option String) (convert : String) (limit : Int)
    (upstream : UpstreamOutcome (List α)) :
    List Request × Except HttpError (Envelope (List α)) :=
  match require_api_key apiKey with
  | some e => ([], .error e)
  | none =>
    let req := listingsRequest (apiKey.getD "") convert limit
    match upstream with
    | .exn msg => ([req], .error ⟨502, msg⟩)
    | .resp status text data =>
      if status ≠ 200 then ([req], .error ⟨status, text⟩)
      else ([req], .ok ⟨data⟩)

/-- `cmc_quotes` (`src/main.py` lines 93-106). -/
def cmc_quotes {α : Type} (apiKey : Option String) (symbols convert : String)
    (upstream : UpstreamOutcome α) : List Request × Except HttpError (Envelope α) :=
  match require_api_key apiKey with
  | some e => ([], .error e)
  | none =>
    let req := quotesRequest (apiKey.getD "") symbols convert
    match upstream with
    | .exn msg => ([req], .error ⟨502, msg⟩)
    | .resp status text data =>
      if status ≠ 200 then ([req], .error ⟨status, text⟩)
      else ([req], .ok ⟨data⟩)

/-- The symbol-to-id resolution of `historical_prices`
(`src/main.py` lines 130-139): the loop with `break` is the first list entry
whose lowercased symbol equals the lowercased query (`List.find?`), yielding
that entry's `id`; if that is falsy and the list is non-empty, fall back to
`coins[0].get("id")`. The result is the final value of `coin_id`. -/
def resolveCoinId (symbol : String) (coins : List Coin) : Option String :=
  let symLower := lowerStr symbol
  let coin_id : Option String :=
    match coins.find? (fun item => lowerStr item.symbol == symLower) with
    | some item => item.id
    | none => none
  if (!truthyOpt coin_id) && (!coins.isEmpty) then
    match coins with
    | [] => coin_id
    | first :: _ => first.id
  else coin_id

/-- Detail of the 404 raised by `historical_prices` (`src/main.py` line 141). -/
def notFoundDetail (symbol : String) : String :=
  "Symbol \x27" ++ symbol ++ "\x27 not found on CoinGecko"

/-- The history endpoint's response body (`src/main.py` line 154). -/
structure HistoryOut where
  symbol : String
  convert : String
  points : List (Int × Rat)
deriving DecidableEq

/-- `historical_prices` (`src/main.py` lines 113-156): search response and
chart response supplied as oracles; returns the issued requests (in order)
and the outcome. `chart.resp`'s payload is `r.json().get("prices", [])`. -/
def historical_prices (symbol convert days : String) (interval : Option String)
    (search : UpstreamOutcome (List Coin))
    (chart : UpstreamOutcome (List (Int × Rat))) :
    List Request × Except HttpError HistoryOut :=
  let sreq := searchRequest symbol
  match search with
  | .exn msg => ([sreq], .error ⟨502, msg⟩)
  | .resp st text coins =>
    if st ≠ 200 then ([sreq], .error ⟨st, text⟩)
    else
      match resolveCoinId symbol coins with
      | none => ([sreq], .error ⟨404, notFoundDetail symbol⟩)
      | some cid =>
        if cid.isEmpty then ([sreq], .error ⟨404, notFoundDetail symbol⟩)
        else
          let creq := chartRequest cid convert days interval
          match chart with
          | .exn msg => ([sreq, creq], .error ⟨502, msg⟩)
          | .resp st2 text2 prices =>
            if st2 ≠ 200 then ([sreq, creq], .error ⟨st2, text2⟩)
            else ([sreq, creq], .ok ⟨upperStr symbol, upperStr convert, prices⟩)

/-- Status of the framework's parameter-validation rejection; the body of a
FastAPI 422 is framework plumbing, modelled as a fixed marker string. -/
def validationRejection : HttpError := ⟨422, "request validation failed"⟩

/-- The route for `/api/cmc/global`: the framework enforces the declared
constraint `Query("USD", min_length=3, max_length=6)` on `convert`
(`src/main.py` line 62) before the handler body runs. -/
def cmc_global_route {α : Type} (apiKey : Option String) (convert : String)
    (upstream : UpstreamOutcome α) : List Request × Except HttpError (Envelope α) :=
  if 3 ≤ convert.length ∧ convert.length ≤ 6 then cmc_global apiKey convert upstream
  else ([], .error validationRejection)

/-- The route for `/api/cmc/listings`: the framework enforces
`Query(100, ge=1, le=500)` on `limit` (`src/main.py` line 78) before the
handler body runs; `convert` carries no declared constraint there. -/
def cmc_listings_route {α : Type} (apiKey : Option String) (convert : String)
    (limit : Int) (upstream : UpstreamOutcome (List α)) :
    List Request × Except HttpError (Envelope (List α)) :=
  if 1 ≤ limit ∧ limit ≤ 500 then cmc_listings apiKey convert limit upstream
  else ([], .error validationRejection)

/-- C1: if the search result list contains an entry whose symbol,
compared case-insensitively, equals the requested symbol, the resolver
selects that entry's identifier — the first such entry in upstream order
(`List.find?`) — even when it is not the first element of the list.
Candidates are assumed well-formed as in the spec's Catalog Match data
model: every entry carries a present, non-empty identifier (entries with a
missing or empty `id` are the degenerate case treated separately by the
truthy-id invariant). -/
theorem resolve_prefers_exact_match (symbol : String) (coins : List Coin)
    (hwf : ∀ c ∈ coins, truthyOpt c.id = true) (item : Coin)
    (hfind : coins.find? (fun c => lowerStr c.symbol == lowerStr symbol) = some item) :
    resolveCoinId symbol coins = item.id ∧ truthyOpt item.id = true := by
  have hmem : item ∈ coins := List.mem_of_find?_eq_some hfind
  have htr : truthyOpt item.id = true := hwf item hmem
  refine ⟨?_, htr⟩
  simp only [resolveCoinId]
  rw [hfind]
  simp [htr]

/-- Witness for C1: for query `btc` against a list whose second entry is the
exact case-insensitive match, the resolver returns `bitcoin`, not the first
entry's identifier. -/
theorem resolve_prefers_exact_match_witness :
    (∀ c ∈ ([⟨some "othercoin", "OTH"⟩, ⟨some "bitcoin", "BTC"⟩] : List Coin),
        truthyOpt c.id = true) ∧
    ([⟨some "othercoin", "OTH"⟩, ⟨some "bitcoin", "BTC"⟩] : List Coin).find?
        (fun c => lowerStr c.symbol == lowerStr "btc") = some ⟨some "bitcoin", "BTC"⟩ ∧
    resolveCoinId "btc" [⟨some "othercoin", "OTH"⟩, ⟨some "bitcoin", "BTC"⟩]
      = some "bitcoin" := by
  refine ⟨by decide, by decide, ?_⟩
  exact (resolve_prefers_exact_match "btc"
    [⟨some "othercoin", "OTH"⟩, ⟨some "bitcoin", "BTC"⟩] (by decide)
    ⟨some "bitcoin", "BTC"⟩ (by decide)).1

/-- C2: if no entry's symbol equals the requested symbol case-insensitively
and the list is non-empty, the resolver falls back to the first entry's
identifier. Candidates are assumed well-formed as in the spec's Catalog
Match data model (non-empty identifiers). -/
theorem resolve_falls_back_to_first (symbol : String) (first : Coin) (rest : List Coin)
    (hwf : ∀ c ∈ first :: rest, truthyOpt c.id = true)
    (hnone : (first :: rest).find? (fun c => lowerStr c.symbol == lowerStr symbol) = none) :
    resolveCoinId symbol (first :: rest) = first.id ∧ truthyOpt first.id = true := by
  have htr : truthyOpt first.id = true := hwf first (List.mem_cons_self first rest)
  refine ⟨?_, htr⟩
  simp only [resolveCoinId]
  rw [hnone]
  simp [truthyOpt]

/-- Witness for C2: for query `xyz` against a two-entry list with no
case-insensitive symbol match, the resolver returns the first entry's
identifier `othercoin`. -/
theorem resolve_falls_back_to_first_witness :
    (∀ c ∈ ([⟨some "othercoin", "OTH"⟩, ⟨some "bitcoin", "BTC"⟩] : List Coin),
        truthyOpt c.id = true) ∧
    ([⟨some "othercoin", "OTH"⟩, ⟨some "bitcoin", "BTC"⟩] : List Coin).find?
        (fun c => lowerStr c.symbol == lowerStr "xyz") = none ∧
    resolveCoinId "xyz" [⟨some "othercoin", "OTH"⟩, ⟨some "bitcoin", "BTC"⟩]
      = some "othercoin" := by
  refine ⟨by decide, by decide, ?_⟩
  exact (resolve_falls_back_to_first "xyz" ⟨some "othercoin", "OTH"⟩
    [⟨some "bitcoin", "BTC"⟩] (by decide) (by decide)).1

/-- C3: when the search call succeeds (status 200) with an empty candidate
list, the history endpoint fails with 404 and a detail containing the
requested symbol, and the only request issued is the search request — no
chart-fetch call is made. -/
theorem history_404_on_empty_search (symbol convert days text : String)
    (interval : Option String) (chart : UpstreamOutcome (List (Int × Rat))) :
    historical_prices symbol convert days interval (.resp 200 text []) chart
      = ([searchRequest symbol], .error ⟨404, notFoundDetail symbol⟩) ∧
    ∃ pre post, notFoundDetail symbol = pre ++ symbol ++ post := by
  exact ⟨rfl, "Symbol \x27", "\x27 not found on CoinGecko", rfl⟩

/-- C4: with the provider API key unset (or empty, hence falsy), each of the
three CoinMarketCap-backed handlers fails with 503 and the fixed detail
naming `CMC_API_KEY`, issuing no upstream request, regardless of the other
parameters. -/
theorem cmc_endpoints_require_key {α β γ : Type} (apiKey : Option String)
    (hkey : truthyOpt apiKey = false)
    (convert1 convert2 convert3 symbols : String) (limit : Int)
    (u1 : UpstreamOutcome α) (u2 : UpstreamOutcome (List β)) (u3 : UpstreamOutcome γ) :
    cmc_global apiKey convert1 u1 = ([], .error ⟨503, keyMissingDetail⟩) ∧
    cmc_listings apiKey convert2 limit u2 = ([], .error ⟨503, keyMissingDetail⟩) ∧
    cmc_quotes apiKey symbols convert3 u3 = ([], .error ⟨503, keyMissingDetail⟩) ∧
    ∃ pre post, keyMissingDetail = pre ++ "CMC_API_KEY" ++ post := by
  have hreq : require_api_key apiKey = some ⟨503, keyMissingDetail⟩ := by
    simp [require_api_key, hkey]
  refine ⟨?_, ?_, ?_, "CoinMarketCap API key not configured. Set ",
    " environment variable.", by decide⟩
  · simp [cmc_global, hreq]
  · simp [cmc_listings, hreq]
  · simp [cmc_quotes, hreq]

/-- Witness for C4: with no key configured, all three handlers return the
503 configuration error and issue no request. -/
theorem cmc_endpoints_require_key_witness :
    truthyOpt none = false ∧
    cmc_global (α := Unit) none "USD" (.resp 200 "" ()) = ([], .error ⟨503, keyMissingDetail⟩) ∧
    cmc_listings (α := Unit) none "USD" 100 (.resp 200 "" [])
      = ([], .error ⟨503, keyMissingDetail⟩) ∧
    cmc_quotes (α := Unit) none "BTC,ETH" "USD" (.resp 200 "" ())
      = ([], .error ⟨503, keyMissingDetail⟩) := by
  have h := cmc_endpoints_require_key (α := Unit) (β := Unit) (γ := Unit) none rfl
    "USD" "USD" "USD" "BTC,ETH" 100 (.resp 200 "" ()) (.resp 200 "" []) (.resp 200 "" ())
  exact ⟨rfl, h.1, h.2.1, h.2.2.1⟩

/-- Counterexample to C5: with `limit = 1` and a 200 upstream response whose
`data` array has two entries, the listings handler returns both entries —
no server-side cap at `limit` is applied (`limit` is only forwarded
upstream as a query parameter). -/
theorem listings_cap_counterexample :
    (cmc_listings (α := String) (some "k") "USD" 1 (.resp 200 "" ["a", "b"])).snd
      = .ok ⟨["a", "b"]⟩ ∧
    ¬((["a", "b"] : List String).length ≤ 1) :=
  ⟨rfl, by decide⟩

/-- C5 amended: on a 200 upstream response the listings envelope is
upstream's `data` array passed through entirely unchanged (no local
truncation), and the request's `limit` parameter is forwarded to the
upstream in the single issued request's query. -/
theorem listings_passthrough_forwards_limit {α : Type} (apiKey : Option String)
    (hkey : truthyOpt apiKey = true) (convert : String) (limit : Int)
    (text : String) (data : List α) :
    cmc_listings apiKey convert limit (.resp 200 text data)
      = ([listingsRequest (apiKey.getD "") convert limit], .ok ⟨data⟩) ∧
    ("limit", toString limit) ∈ (listingsRequest (apiKey.getD "") convert limit).params := by
  have hreq : require_api_key apiKey = none := by
    simp [require_api_key, hkey]
  constructor
  · simp [cmc_listings, hreq]
  · simp [listingsRequest]

/-- Witness for C5's amended theorem: with a configured key, `limit = 2` and
a three-entry upstream array, all three entries come back unchanged and the
request carries `limit=2`. -/
theorem listings_passthrough_forwards_limit_witness :
    truthyOpt (some "k") = true ∧
    cmc_listings (α := String) (some "k") "USD" 2 (.resp 200 "" ["a", "b", "c"])
      = ([listingsRequest "k" "USD" 2], .ok ⟨["a", "b", "c"]⟩) ∧
    ("limit", toString (2 : Int)) ∈ (listingsRequest "k" "USD" 2).params := by
  have h := listings_passthrough_forwards_limit (α := String) (some "k") rfl
    "USD" 2 "" ["a", "b", "c"]
  exact ⟨rfl, h.1, h.2⟩

/-- Counterexample to C6: a 201 upstream response — a 2xx status — is not
treated as a success at the pass-through step: the handler re-raises it as
an outward 201 error, because the code tests `status_code != 200`. -/
theorem status_2xx_counterexample :
    (200 ≤ 201 ∧ 201 < 300) ∧
    (cmc_global (α := Unit) (some "k") "USD" (.resp 201 "created" ())).snd
      = .error ⟨201, "created"⟩ :=
  ⟨by decide, rfl⟩

/-- C6 amended: every proxied call whose transport-level status differs from
exactly 200 is surfaced with the upstream's status code and raw body text
verbatim (global, listings, quotes, history search step, history chart
step), and a status of exactly 200 — not any 2xx — is treated as success. -/
theorem upstream_status_passthrough {α β γ : Type} (apiKey : Option String)
    (hkey : truthyOpt apiKey = true)
    (convert symbols symbol days text : String) (limit : Int)
    (interval : Option String) (st : Nat)
    (d1 : α) (d2 : List β) (d3 : γ) (coins : List Coin)
    (chart : UpstreamOutcome (List (Int × Rat))) (prices : List (Int × Rat)) :
    (st ≠ 200 →
      (cmc_global apiKey convert (.resp st text d1)).snd = .error ⟨st, text⟩ ∧
      (cmc_listings apiKey convert limit (.resp st text d2)).snd = .error ⟨st, text⟩ ∧
      (cmc_quotes apiKey symbols convert (.resp st text d3)).snd = .error ⟨st, text⟩ ∧
      historical_prices symbol convert days interval (.resp st text coins) chart
        = ([searchRequest symbol], .error ⟨st, text⟩)) ∧
    (st = 200 →
      (cmc_global apiKey convert (.resp st text d1)).snd = .ok ⟨d1⟩ ∧
      (cmc_listings apiKey convert limit (.resp st text d2)).snd = .ok ⟨d2⟩ ∧
      (cmc_quotes apiKey symbols convert (.resp st text d3)).snd = .ok ⟨d3⟩) ∧
    (∀ cid, resolveCoinId symbol coins = some cid → cid.isEmpty = false → st ≠ 200 →
      historical_prices symbol convert days interval (.resp 200 text coins)
          (.resp st text prices)
        = ([searchRequest symbol, chartRequest cid convert days interval],
           .error ⟨st, text⟩)) := by
  have hreq : require_api_key apiKey = none := by
    simp [require_api_key, hkey]
  refine ⟨fun hst => ⟨?_, ?_, ?_, ?_⟩, fun hst => ?_, fun cid hres hcid hst => ?_⟩
  · simp [cmc_global, hreq, hst]
  · simp [cmc_listings, hreq, hst]
  · simp [cmc_quotes, hreq, hst]
  · simp [historical_prices, hst]
  · subst hst
    exact ⟨by simp [cmc_global, hreq], by simp [cmc_listings, hreq],
      by simp [cmc_quotes, hreq]⟩
  · simp [historical_prices, hres, hcid, hst]

/-- Witness for C6's amended theorem: a 500 upstream response is surfaced as
an outward 500 with the upstream body verbatim. -/
theorem upstream_status_passthrough_witness :
    truthyOpt (some "k") = true ∧ (500 : Nat) ≠ 200 ∧
    (cmc_global (α := Unit) (some "k") "USD" (.resp 500 "oops" ())).snd
      = .error ⟨500, "oops"⟩ := by
  have h := upstream_status_passthrough (α := Unit) (β := Unit) (γ := Unit)
    (some "k") rfl "USD" "BTC,ETH" "BTC" "7" "oops" 100 none 500
    () [] () [] (.resp 200 "" []) []
  exact ⟨rfl, by decide, (h.1 (by decide)).1⟩

/-- Counterexample to C7: the listings route declares no constraint on
`convert` — with `convert = "X"` (length 1, outside 3-6) and a valid
`limit`, the upstream request is still issued rather than the request being
rejected before the upstream call. -/
theorem listings_convert_unvalidated :
    ¬(3 ≤ ("X" : String).length ∧ ("X" : String).length ≤ 6) ∧
    (cmc_listings_route (α := Unit) (some "k") "X" 100 (.resp 200 "" [])).fst
      = [listingsRequest "k" "X" 100] :=
  ⟨by decide, rfl⟩

/-- C7 amended: the constraints actually declared on the route parameters —
`convert` length 3-6 on the global endpoint, `limit` in [1,500] on the
listings endpoint — are enforced before any upstream request is issued;
the listings endpoint places no constraint on `convert`, so with a valid
`limit` and configured key it issues its upstream request for any
`convert`. -/
theorem declared_param_checks_preflight {α β : Type} (apiKey : Option String)
    (convert : String) (limit : Int)
    (u1 : UpstreamOutcome α) (u2 : UpstreamOutcome (List β)) :
    (¬(3 ≤ convert.length ∧ convert.length ≤ 6) →
      cmc_global_route apiKey convert u1 = ([], .error validationRejection)) ∧
    (¬(1 ≤ limit ∧ limit ≤ 500) →
      cmc_listings_route apiKey convert limit u2 = ([], .error validationRejection)) ∧
    (truthyOpt apiKey = true → 1 ≤ limit → limit ≤ 500 →
      (cmc_listings_route apiKey convert limit u2).fst
        = [listingsRequest (apiKey.getD "") convert limit]) := by
  have hreq : ∀ h : truthyOpt apiKey = true, require_api_key apiKey = none :=
    fun h => by simp [require_api_key, h]
  refine ⟨fun hc => ?_, fun hl => ?_, fun hk h1 h2 => ?_⟩
  · simp [cmc_global_route, hc]
  · simp [cmc_listings_route, hl]
  · rw [cmc_listings_route, if_pos ⟨h1, h2⟩]
    cases u2 with
    | exn msg => simp [cmc_listings, hreq hk]
    | resp st text data =>
      by_cases hst : st ≠ 200 <;> simp [cmc_listings, hreq hk, hst]

/-- Witness for C7's amended theorem: `convert = "AB"` is rejected by the
global route, `limit = 501` by the listings route, both with no request
issued; and the listings route issues its request for a 1-character
`convert`. -/
theorem declared_param_checks_preflight_witness :
    ¬(3 ≤ ("AB" : String).length ∧ ("AB" : String).length ≤ 6) ∧
    cmc_global_route (α := Unit) (some "k") "AB" (.resp 200 "" ())
      = ([], .error validationRejection) ∧
    ¬((1 : Int) ≤ 501 ∧ (501 : Int) ≤ 500) ∧
    cmc_listings_route (α := Unit) (some "k") "USD" 501 (.resp 200 "" [])
      = ([], .error validationRejection) ∧
    (cmc_listings_route (α := Unit) (some "k") "X" 100 (.resp 200 "" [])).fst
      = [listingsRequest "k" "X" 100] := by
  have h1 := declared_param_checks_preflight (α := Unit) (β := Unit)
    (some "k") "AB" 100 (.resp 200 "" ()) (.resp 200 "" [])
  have h2 := declared_param_checks_preflight (α := Unit) (β := Unit)
    (some "k") "USD" 501 (.resp 200 "" ()) (.resp 200 "" [])
  have h3 := declared_param_checks_preflight (α := Unit) (β := Unit)
    (some "k") "X" 100 (.resp 200 "" ()) (.resp 200 "" [])
  exact ⟨by decide, h1.1 (by decide), by decide, h2.2.1 (by decide),
    h3.2.2 rfl (by decide) (by decide)⟩

/-- Counterexample to C8: the resolver's search call is issued with a
15-second timeout, not the claimed 20-second list/search allowance; the
request the history handler actually issues is exactly this one. -/
theorem search_timeout_counterexample :
    (searchRequest "BTC").timeout = 15 ∧ (searchRequest "BTC").timeout ≠ 20 ∧
    (historical_prices "BTC" "USD" "7" none (.resp 200 "" []) (.resp 200 "" [])).fst
      = [searchRequest "BTC"] :=
  ⟨rfl, by decide, rfl⟩

/-- C8 amended: the global-metrics, quotes and symbol-search requests use a
15-second timeout; the listings and market-chart requests use 20 seconds. -/
theorem request_timeouts (key convert symbols symbol coinId days : String)
    (limit : Int) (interval : Option String) :
    (globalRequest key convert).timeout = 15 ∧
    (quotesRequest key symbols convert).timeout = 15 ∧
    (searchRequest symbol).timeout = 15 ∧
    (listingsRequest key convert limit).timeout = 20 ∧
    (chartRequest coinId convert days interval).timeout = 20 :=
  ⟨rfl, rfl, rfl, rfl, rfl⟩

/-- C9: on a successful history request — the search call returns 200 with a
candidate list that resolves to a truthy identifier, and the chart call
returns 200 — the response's `points` field is exactly upstream's `prices`
array: the same pairs, in the same order, pairing preserved. -/
theorem history_points_exact_passthrough (symbol convert days text text2 : String)
    (interval : Option String) (coins : List Coin) (cid : String)
    (hres : resolveCoinId symbol coins = some cid) (hcid : cid.isEmpty = false)
    (prices : List (Int × Rat)) :
    historical_prices symbol convert days interval (.resp 200 text coins)
        (.resp 200 text2 prices)
      = ([searchRequest symbol, chartRequest cid convert days interval],
         .ok ⟨upperStr symbol, upperStr convert, prices⟩) := by
  simp [historical_prices, hres, hcid]

/-- Witness for C9: two concrete price points come back verbatim, in order,
with the symbol and currency uppercased. -/
theorem history_points_exact_passthrough_witness :
    resolveCoinId "btc" [⟨some "bitcoin", "BTC"⟩] = some "bitcoin" ∧
    ("bitcoin" : String).isEmpty = false ∧
    historical_prices "btc" "usd" "7" none
        (.resp 200 "" [⟨some "bitcoin", "BTC"⟩])
        (.resp 200 "" [(1000, 50000), (2000, 50010)])
      = ([searchRequest "btc", chartRequest "bitcoin" "usd" "7" none],
         .ok ⟨"BTC", "USD", [(1000, 50000), (2000, 50010)]⟩) := by
  refine ⟨by decide, rfl, ?_⟩
  exact history_points_exact_passthrough "btc" "usd" "7" "" "" none
    [⟨some "bitcoin", "BTC"⟩] "bitcoin" (by decide) rfl
    [(1000, 50000), (2000, 50010)]

/-- C10: the history handler never issues a chart fetch with a falsy
identifier: (1) when the first case-insensitive match has a missing or
empty `id`, resolution falls back to the first candidate's `id`; (2) when
resolution yields no truthy identifier, the handler fails with the 404
naming the symbol and issues no chart request; (3) every request the
handler issues is either the search request or a chart request whose
embedded identifier is non-empty. -/
theorem history_truthy_id_invariant (symbol convert days text : String)
    (interval : Option String) (coins : List Coin)
    (chart : UpstreamOutcome (List (Int × Rat))) :
    (∀ item first rest, coins = first :: rest →
      coins.find? (fun c => lowerStr c.symbol == lowerStr symbol) = some item →
      truthyOpt item.id = false →
      resolveCoinId symbol coins = first.id) ∧
    (truthyOpt (resolveCoinId symbol coins) = false →
      historical_prices symbol convert days interval (.resp 200 text coins) chart
        = ([searchRequest symbol], .error ⟨404, notFoundDetail symbol⟩)) ∧
    (∀ req ∈ (historical_prices symbol convert days interval
        (.resp 200 text coins) chart).fst,
      req = searchRequest symbol ∨
      ∃ cid, cid ≠ "" ∧ resolveCoinId symbol coins = some cid ∧
        req = chartRequest cid convert days interval) := by
  refine ⟨fun item first rest hc hfind htr => ?_, fun hfalsy => ?_, fun req hreq => ?_⟩
  · subst hc
    simp only [resolveCoinId]
    rw [hfind]
    simp [htr]
  · cases hres : resolveCoinId symbol coins with
    | none => simp [historical_prices, hres]
    | some cid =>
      rw [hres] at hfalsy
      have hemp : cid.isEmpty = true := by
        simpa [truthyOpt] using hfalsy
      simp [historical_prices, hres, hemp]
  · cases hres : resolveCoinId symbol coins with
    | none =>
      simp only [historical_prices, hres] at hreq
      simp at hreq
      exact Or.inl hreq
    | some cid =>
      by_cases hemp : cid.isEmpty
      · simp only [historical_prices, hres] at hreq
        simp [hemp] at hreq
        exact Or.inl hreq
      · have hne : cid ≠ "" := by
          simpa [String.isEmpty_iff] using hemp
        have hfst : (historical_prices symbol convert days interval
            (.resp 200 text coins) chart).fst
            = [searchRequest symbol, chartRequest cid convert days interval] := by
          cases chart with
          | exn msg => simp [historical_prices, hres, hemp]
          | resp st2 text2 prices =>
            by_cases hst : st2 ≠ 200 <;> simp [historical_prices, hres, hemp, hst]
        rw [hfst] at hreq
        simp only [List.mem_cons, List.not_mem_nil, or_false] at hreq
        rcases hreq with h | h
        · exact Or.inl h
        · exact Or.inr ⟨cid, hne, rfl, h⟩

/-- Witness for C10: a single candidate matching the query but carrying no
`id` leads to the 404 with no chart request issued. -/
theorem history_truthy_id_invariant_witness :
    truthyOpt (resolveCoinId "BTC" [⟨none, "BTC"⟩]) = false ∧
    historical_prices "BTC" "USD" "7" none
        (.resp 200 "" [⟨none, "BTC"⟩]) (.resp 200 "" [])
      = ([searchRequest "BTC"], .error ⟨404, notFoundDetail "BTC"⟩) := by
  refine ⟨by decide, ?_⟩
  exact (history_truthy_id_invariant "BTC" "USD" "7" "" none
    [⟨none, "BTC"⟩] (.resp 200 "" [])).2.1 (by decide)
